import Mathlib

/-!
# Verification of the CVS Capacity Manager core (src/main.py)

Shallow embedding of the capacity-planning and resize-decision code of
`src/main.py`.  Python's float arithmetic on the sizing code paths is
modelled by exact rational arithmetic over `ℚ`; Python's `int(...)`
conversion (truncation toward zero) is modelled by `pyInt`.  Stateful and
effectful parts (HTTP calls, token refresh, logging) are modelled by
explicit state passing and by recording the would-be side effects in the
returned values.
-/

namespace CVSCapacityManager

/-- Python's `int(x)` applied to a (modelled-as-exact) float: truncation
toward zero. -/
def pyInt (q : ℚ) : ℤ := if 0 ≤ q then ⌊q⌋ else ⌈q⌉

/-- The `qos` dict of `calculateNewCapacity` (main.py lines 327-331):
serviceLevel ↦ throughput in KiB/s per allocated GiB. -/
def qosLookup (serviceLevel : String) : Option ℤ :=
  if serviceLevel == "basic" then some 16
  else if serviceLevel == "standard" then some 64
  else if serviceLevel == "extreme" then some 128
  else if serviceLevel == "standard-sw" then some 128
  else none

/-- The `speed` selection in `calculateNewCapacity` (main.py lines 333-337):
a known serviceLevel uses its table entry, an unknown one falls back to
`qos['extreme'] = 128` (after a logged warning). -/
def qosSpeed (serviceLevel : String) : ℤ :=
  (qosLookup serviceLevel).getD 128

/-- Embeds `calculateNewCapacity(size, serviceLevel, duration, margin)`
(main.py lines 324-347):

    newSize = int( -size / ( duration * 60 * speed / 1024**2 * (1 + margin / 100) - 1) )
    newSize = int(newSize / 1024**3 + 1) * 1024**3
-/
def calculateNewCapacity (size : ℤ) (serviceLevel : String) (duration : ℤ)
    (margin : ℤ) : ℤ :=
  let speed : ℤ := qosSpeed serviceLevel
  let newSize : ℤ :=
    pyInt (-(size : ℚ) /
      ((duration : ℚ) * 60 * (speed : ℚ) / 1024 ^ 2 * (1 + (margin : ℚ) / 100) - 1))
  pyInt ((newSize : ℚ) / 1024 ^ 3 + 1) * 1024 ^ 3

/-- The static-margin size computation of `resizeVolume` for `duration == 0`
(main.py lines 395-399):

    newSize = int(used * 100 / (100 - margin))
    newSize = int(newSize / 1024**3 + 1) * 1024**3
-/
def staticNewSize (used : ℤ) (margin : ℤ) : ℤ :=
  let newSize : ℤ := pyInt ((used : ℚ) * 100 / (100 - (margin : ℚ)))
  pyInt ((newSize : ℚ) / 1024 ^ 3 + 1) * 1024 ^ 3

/-! ## Volumes and the resize decision engine -/

/-- The fields of a CVS volume record that `resizeVolume` and
`getVolumesByVolumeID` read (main.py lines 251-259 and 364-441).  The byte
counters arrive as JSON numbers and are converted with `int(...)` by the
code; they are modelled as integers. -/
structure Volume where
  name : String
  region : String
  volumeId : String
  quotaInBytes : ℤ
  usedBytes : ℤ
  snapReserve : ℤ
  lifeCycleState : String
  isDataProtection : Bool
  inReplication : Bool
  storageClass : String
  serviceLevel : String
deriving DecidableEq, Repr

/-- Terminal state of `resizeVolume` for one volume: the two early-return
skips (lines 371-384), the no-resize branch (lines 414-416) and the
resize branch (lines 405-413). -/
inductive Decision
  | skippedNotAvailable
  | skippedReplication
  | unchanged
  | resizeProposed (newSize : ℤ)
deriving DecidableEq, Repr

/-- Observable result of one `resizeVolume` call: the decision taken, whether
the 100 TiB cap warning was printed, the PUT/patch call issued (if any, as
(region, volumeId, newSize)), the one report line printed for the volume
(identified here by the volume name), and the boolean return value. -/
structure ResizeOutcome where
  decision : Decision
  capWarning : Bool
  patchCall : Option (String × String × ℤ)
  report : String
  retVal : Bool
deriving DecidableEq, Repr

/-- Tier normalization of `resizeVolume` (main.py lines 389-392):
volumes whose storageClass is not "hardware" are treated as
serviceLevel "standard-sw". -/
def effectiveServiceLevel (v : Volume) : String :=
  if v.storageClass == "hardware" then v.serviceLevel else "standard-sw"

/-- The `newSize` computed in `resizeVolume` before the quota comparison
(main.py lines 394-402): static margin mode when `duration == 0`,
otherwise `calculateNewCapacity`. -/
def computedNewSize (v : Volume) (duration margin : ℤ) : ℤ :=
  if duration == 0 then staticNewSize v.usedBytes margin
  else calculateNewCapacity v.usedBytes (effectiveServiceLevel v) duration margin

/-- Embeds `resizeVolume(cvs, volume, duration, margin, outputJSON, dry_mode)`
(main.py lines 364-441) as a function from the volume and policy
parameters to its observable outcome.  Every branch prints exactly one
line for the volume (a skip message or the volume entry), recorded in
`report`. -/
def resizeVolume (v : Volume) (duration margin : ℤ) (dry_mode : Bool) :
    ResizeOutcome :=
  if v.lifeCycleState != "available" then
    { decision := .skippedNotAvailable, capWarning := false, patchCall := none,
      report := v.name, retVal := false }
  else if v.isDataProtection && v.inReplication then
    { decision := .skippedReplication, capWarning := false, patchCall := none,
      report := v.name, retVal := false }
  else
    let newSize0 := computedNewSize v duration margin
    if newSize0 > v.quotaInBytes then
      let capped := newSize0 > 100 * 1024 ^ 4
      let newSize := if capped then 100 * 1024 ^ 4 else newSize0
      { decision := .resizeProposed newSize, capWarning := capped,
        patchCall := if dry_mode then none
                     else some (v.region, v.volumeId, newSize),
        report := v.name, retVal := !dry_mode }
    else
      { decision := .unchanged, capWarning := false, patchCall := none,
        report := v.name, retVal := false }

/-- Upstream API behaviour for a run: whether the get/put pair issued by
`resizeVolumeByVolumeID` for a given volumeId fails with a non-2xx status
(making `raise_for_status()` raise). -/
structure ApiEnv where
  apiFails : String → Bool

/-- The volume loop of `resize` (main.py lines 358-359).  `resizeVolume` has
no exception handler, so an HTTP error raised by the patch call of one
volume propagates and ends the loop: the result is the list of report
lines actually printed and a flag telling whether the run was aborted by
such an exception. -/
def runBatch (env : ApiEnv) (duration margin : ℤ) (dry : Bool) :
    List Volume → List String × Bool
  | [] => ([], false)
  | v :: rest =>
    let out := resizeVolume v duration margin dry
    if out.patchCall.isSome && env.apiFails v.volumeId then
      ([out.report], true)
    else
      let r := runBatch env duration margin dry rest
      (out.report :: r.1, r.2)

/-! ## Token lifecycle (BearerAuth.ImpersonationCreds) -/

/-- State of `BearerAuth.ImpersonationCreds` (main.py lines 141-175): the
cached signed token and its expiry.  Time is modelled as an integer count
of seconds; the token is identified by its issuance time (the `iat` claim
of the JWT whose signing is delegated to the external IAM service). -/
structure ImpersonationCreds where
  expiry : ℤ
  token : ℤ
deriving DecidableEq, Repr

/-- The constant `token_life_time = 5*60` seconds (main.py line 146). -/
def token_life_time : ℤ := 5 * 60

/-- Embeds `_new_token` (main.py lines 158-175): sets `expiry = now + token_life_time`
and caches a token freshly signed at `now`. -/
def ImpersonationCreds.newToken (now : ℤ) : ImpersonationCreds :=
  { expiry := now + token_life_time, token := now }

/-- Embeds `get_token` (main.py lines 152-156): refresh if
`now + 10s > expiry`, then return the cached token.  The result carries
the updated state, the returned token and the number of refresh
(`_new_token`) calls performed (0 or 1). -/
def ImpersonationCreds.get_token (s : ImpersonationCreds) (now : ℤ) :
    ImpersonationCreds × ℤ × ℕ :=
  if s.expiry < now + 10 then
    (ImpersonationCreds.newToken now, (ImpersonationCreds.newToken now).token, 1)
  else
    (s, s.token, 0)

/-- Repeated `get_token()` calls at the given sequence of clock times,
accumulating the total number of refresh calls. -/
def ImpersonationCreds.getTokenCalls (s : ImpersonationCreds) :
    List ℤ → ImpersonationCreds × ℕ
  | [] => (s, 0)
  | t :: ts =>
    let r := s.get_token t
    let r2 := r.1.getTokenCalls ts
    (r2.1, r.2.2 + r2.2)

/-! ## Service-level translation -/

/-- Embeds `GCPCVS.translateServiceLevelAPI2UI` (main.py lines 286-297).  The second
component records whether the unknown-serviceLevel warning was logged. -/
def translateServiceLevelAPI2UI (serviceLevel : String) : Option String × Bool :=
  if serviceLevel == "basic" then (some "standard", false)
  else if serviceLevel == "standard" then (some "premium", false)
  else if serviceLevel == "extreme" then (some "extreme", false)
  else if serviceLevel == "standard-sw" then (some "standard-sw", false)
  else (none, true)

/-- Embeds `GCPCVS.translateServiceLevelUI2API` (main.py lines 299-310). -/
def translateServiceLevelUI2API (serviceLevel : String) : Option String × Bool :=
  if serviceLevel == "standard" then (some "basic", false)
  else if serviceLevel == "premium" then (some "standard", false)
  else if serviceLevel == "extreme" then (some "extreme", false)
  else if serviceLevel == "standard-sw" then (some "standard-sw", false)
  else (none, true)

/-! ## Credential classification (BearerAuth.__init__) -/

/-- The JSON service-account key material, reduced to the one field
`BearerAuth.__init__` reads (`project_id`, main.py line 127). -/
structure JSONKey where
  project_id : String
deriving DecidableEq, Repr

/-- Results of the probes `BearerAuth.__init__` (main.py lines 91-128)
applies to the credential string, modelled abstractly because they query
the regex engine, the base64 codec, the JSON parser and the filesystem:

* `matchesPrincipalPattern` — `re.match(user_managed_sa_regex, s)` succeeded;
* `isBase64` — `isBase64(s)` (base64 decode/encode round-trip) succeeded;
* `base64JSON` — `json.loads(base64.b64decode(s))`, `none` meaning a
  `JSONDecodeError`;
* `isFile` — `Path(s).is_file()`;
* `fileJSON` — `json.loads(<file contents>)`, `none` meaning a
  `JSONDecodeError`. -/
structure CredProbe where
  matchesPrincipalPattern : Bool
  isBase64 : Bool
  base64JSON : Option JSONKey
  isFile : Bool
  fileJSON : Option JSONKey
deriving DecidableEq, Repr

/-- The token provider selected by `BearerAuth.__init__`. -/
inductive Credentials
  | impersonation (principal : String)
  | jsonKey (key : JSONKey)
deriving DecidableEq, Repr

/-- Fatal constructor failures of `BearerAuth.__init__`: the explicit
`ValueError` of lines 124-125 (the spec's `CredentialFormatError`) and the
`json.loads` failure (`json.JSONDecodeError`, a `ValueError` subclass,
also a `CredentialFormatError` in the spec's taxonomy). -/
inductive InitError
  | credentialFormatError
  | jsonDecodeError
deriving DecidableEq, Repr

/-- Network calls performed while constructing the provider:
`ImpersonationCreds.__init__` immediately signs a first JWT via the IAM
credentials service (main.py line 150), `JSONKeyCreds.__init__`
immediately refreshes its credential (main.py line 186).  The error paths
of `BearerAuth.__init__` perform no network call. -/
inductive NetworkCall
  | signJwt
  | tokenRefresh
deriving DecidableEq, Repr

/-- Embeds `BearerAuth.__init__(service_account_identifier)` (main.py lines 91-128):
first the principal regex, else the base64 probe (whose JSON parse may
raise), else the file probe (whose JSON parse may raise), else the
explicit `ValueError`. -/
def bearerAuthInit (s : String) (p : CredProbe) :
    Except InitError (Credentials × List NetworkCall) :=
  if p.matchesPrincipalPattern then
    .ok (.impersonation s, [.signJwt])
  else if p.isBase64 then
    match p.base64JSON with
    | some key => .ok (.jsonKey key, [.tokenRefresh])
    | none => .error .jsonDecodeError
  else if p.isFile then
    match p.fileJSON with
    | some key => .ok (.jsonKey key, [.tokenRefresh])
    | none => .error .jsonDecodeError
  else
    .error .credentialFormatError

/-! ## Volume lookup by id -/

/-- Embeds `GCPCVS.getVolumesByVolumeID(region, volumeID)` (main.py lines 251-259),
applied to the volume list returned for the region:

    vols = [volume for volume in r.json() if volume["volumeId"] == volumeID]
    if len(vols) == 1: return vols[0]
    else: return None
-/
def getVolumesByVolumeID (volumes : List Volume) (volumeID : String) :
    Option Volume :=
  let vols := volumes.filter (fun v => v.volumeId == volumeID)
  if vols.length == 1 then vols.head? else none

/-! ## Arithmetic helper lemmas -/

lemma pyInt_of_nonneg {q : ℚ} (h : 0 ≤ q) : pyInt q = ⌊q⌋ := if_pos h

lemma qosSpeed_pos (serviceLevel : String) : 0 < qosSpeed serviceLevel := by
  unfold qosSpeed qosLookup
  split_ifs <;> norm_num

/-- Taking the floor before dividing by a positive integer does not change
the final floor. -/
lemma floor_intCast_div (q : ℚ) (d : ℤ) (hd : 0 < d) :
    ⌊(⌊q⌋ : ℚ) / (d : ℚ)⌋ = ⌊q / (d : ℚ)⌋ := by
  have hd' : (0 : ℚ) < (d : ℚ) := by exact_mod_cast hd
  apply le_antisymm
  · exact Int.floor_le_floor ((div_le_div_iff_of_pos_right hd').mpr (Int.floor_le q))
  · apply Int.le_floor.mpr
    rw [le_div_iff₀ hd']
    have h2 : ⌊q / (d : ℚ)⌋ * d ≤ ⌊q⌋ := by
      apply Int.le_floor.mpr
      push_cast
      exact (le_div_iff₀ hd').mp (Int.floor_le (q / (d : ℚ)))
    exact_mod_cast h2

/-- The value `(⌊n/d⌋ + 1) * d` strictly exceeds `n` for positive `d`. -/
lemma lt_floor_div_succ_mul (n : ℤ) (d : ℤ) (hd : 0 < d) :
    n < (⌊(n : ℚ) / (d : ℚ)⌋ + 1) * d := by
  have hd' : (0 : ℚ) < (d : ℚ) := by exact_mod_cast hd
  have h := Int.lt_floor_add_one ((n : ℚ) / (d : ℚ))
  rw [div_lt_iff₀ hd'] at h
  exact_mod_cast h

/-- Ceiling expressed through floor, so that concrete values of `pyInt` can
be computed by `norm_num` (whose evaluator covers `⌊⌋`). -/
lemma ceil_as_floor (a : ℚ) : ⌈a⌉ = -⌊-a⌋ := by rw [Int.floor_neg, neg_neg]

/-! ## Claim C1: static-margin mode sizing -/

/-- A concrete volume with 80 GiB used, eligible for resizing. -/
def vol80 : Volume :=
  { name := "vol80", region := "europe-west1", volumeId := "id-80",
    quotaInBytes := 80 * 1024 ^ 3, usedBytes := 80 * 1024 ^ 3, snapReserve := 0,
    lifeCycleState := "available", isDataProtection := false,
    inReplication := false, storageClass := "hardware", serviceLevel := "basic" }

/-- C1, counterexample to the claim as stated: in static-margin mode with
`margin = 20` and `usedBytes = 80 GiB`, the code proposes 101 GiB, not the
claimed `ceil_GiB(80 GiB * 100 / 80) = 100 GiB`: the rounding step
`int(newSize / 1024**3 + 1) * 1024**3` adds a full GiB to exact GiB
multiples instead of leaving them unchanged. -/
theorem static_margin_80GiB_cex :
    staticNewSize (80 * 1024 ^ 3) 20 = 101 * 1024 ^ 3 ∧
      staticNewSize (80 * 1024 ^ 3) 20 ≠ 100 * 1024 ^ 3 := by
  constructor <;> norm_num [staticNewSize, pyInt]

/-- C1 (amended): in static-margin mode (`duration == 0`), for every volume
with nonnegative `usedBytes` and every margin with `0 ≤ margin < 100`, the
proposed new size equals `(⌊usedBytes * 100 / (100 - margin) / GiB⌋ + 1) * GiB`
— the ceiling of the target in whole GiB for non-exact multiples, but one
GiB *above* the target when it is an exact GiB multiple (so for
`margin = 20`, `used = 80 GiB` the proposal is 101 GiB). -/
theorem static_margin_mode_size (v : Volume) (margin : ℤ)
    (hu : 0 ≤ v.usedBytes) (hm0 : 0 ≤ margin) (hm1 : margin < 100) :
    computedNewSize v 0 margin =
      (⌊(v.usedBytes : ℚ) * 100 / (100 - (margin : ℚ)) / 1024 ^ 3⌋ + 1) * 1024 ^ 3 := by
  have hm' : (margin : ℚ) < 100 := by exact_mod_cast hm1
  have hden : (0 : ℚ) < 100 - (margin : ℚ) := by linarith
  have hu' : (0 : ℚ) ≤ (v.usedBytes : ℚ) := by exact_mod_cast hu
  have hq : (0 : ℚ) ≤ (v.usedBytes : ℚ) * 100 / (100 - (margin : ℚ)) :=
    div_nonneg (by positivity) hden.le
  have hstep : computedNewSize v 0 margin = staticNewSize v.usedBytes margin := by
    simp [computedNewSize]
  rw [hstep]
  simp only [staticNewSize]
  rw [pyInt_of_nonneg hq]
  set q : ℚ := (v.usedBytes : ℚ) * 100 / (100 - (margin : ℚ)) with hq_def
  have ht0 : (0 : ℚ) ≤ (⌊q⌋ : ℚ) := by
    exact_mod_cast Int.le_floor.mpr (by exact_mod_cast hq)
  have harg : (0 : ℚ) ≤ (⌊q⌋ : ℚ) / 1024 ^ 3 + 1 :=
    add_nonneg (div_nonneg ht0 (by norm_num)) zero_le_one
  rw [pyInt_of_nonneg harg]
  have hcast : ((⌊q⌋ : ℚ) / 1024 ^ 3 + 1) = (⌊q⌋ : ℚ) / ((1024 ^ 3 : ℤ) : ℚ) + 1 := by
    norm_num
  rw [hcast, Int.floor_add_one, floor_intCast_div q (1024 ^ 3) (by norm_num)]
  norm_num

/-- C1 witness: the amended statement instantiated at the concrete
80 GiB volume with margin 20. -/
theorem static_margin_mode_size_witness :
    computedNewSize vol80 0 20 =
      (⌊(vol80.usedBytes : ℚ) * 100 / (100 - (20 : ℚ)) / 1024 ^ 3⌋ + 1) * 1024 ^ 3 :=
  static_margin_mode_size vol80 20 (by decide) (by decide) (by decide)

/-! ## Claim C2: dynamic-mode sizing bounds -/

/-- C2, counterexample to the claim as stated: at `usedBytes = 1 GiB`,
tier "extreme", `duration = 137` minutes, `margin = 0` the fill-rate
denominator `duration * 60 * speed / 1024² * (1 + margin/100) - 1` is
positive (137·60·128 = 1052160 > 1048576), so `calculateNewCapacity`
returns a negative value instead of one `≥ usedBytes`. -/
theorem calculateNewCapacity_cex :
    calculateNewCapacity (1024 ^ 3) "extreme" 137 0 < 1024 ^ 3 := by
  have hs : qosSpeed "extreme" = 128 := rfl
  simp only [calculateNewCapacity, hs]
  norm_num [pyInt, ceil_as_floor]

/-- C2 (amended): for all `usedBytes > 0`, every tier in
{basic, standard, extreme, standard-sw}, every `durationMinutes > 0` and
every margin with `0 ≤ margin < 100` **such that the fill-rate denominator
stays negative**, i.e.
`duration * 60 * throughput(tier) * (100 + margin) < 100 * 1024²`,
`calculateNewCapacity` returns a multiple of 1 GiB that is `≥ usedBytes`.
(Without the extra hypothesis the denominator can turn positive and the
result becomes non-positive, see the counterexample.) -/
theorem calculateNewCapacity_ge (size duration margin : ℤ) (serviceLevel : String)
    (hsl : serviceLevel ∈ (["basic", "standard", "extreme", "standard-sw"] : List String))
    (hs : 0 < size) (hd : 0 < duration) (hm0 : 0 ≤ margin) (hm1 : margin < 100)
    (hden : duration * 60 * qosSpeed serviceLevel * (100 + margin) < 100 * 1024 ^ 2) :
    (1024 ^ 3 : ℤ) ∣ calculateNewCapacity size serviceLevel duration margin ∧
      size ≤ calculateNewCapacity size serviceLevel duration margin := by
  set sp : ℤ := qosSpeed serviceLevel with hsp_def
  have hsp : 0 < sp := qosSpeed_pos serviceLevel
  -- the rational fill-rate factor X and its bounds 0 < X < 1
  set X : ℚ :=
    (duration : ℚ) * 60 * (sp : ℚ) / 1024 ^ 2 * (1 + (margin : ℚ) / 100) with hX_def
  have hd' : (0 : ℚ) < (duration : ℚ) := by exact_mod_cast hd
  have hsp' : (0 : ℚ) < (sp : ℚ) := by exact_mod_cast hsp
  have hm0' : (0 : ℚ) ≤ (margin : ℚ) := by exact_mod_cast hm0
  have hXeq : X = ((duration * 60 * sp * (100 + margin) : ℤ) : ℚ) / (1024 ^ 2 * 100) := by
    rw [hX_def]
    push_cast
    ring
  have hX1 : X < 1 := by
    rw [hXeq, div_lt_one (by norm_num)]
    have h' : ((duration : ℚ) * 60 * (sp : ℚ) * (100 + (margin : ℚ))) < 100 * 1024 ^ 2 := by
      exact_mod_cast hden
    push_cast
    linarith
  have hX0 : 0 < X := by
    rw [hXeq]
    apply div_pos _ (by norm_num)
    exact_mod_cast by positivity
  -- rewrite the first truncation argument as size / (1 - X) ≥ size
  have hY : (0 : ℚ) < 1 - X := by linarith
  have hflip : -(size : ℚ) / (X - 1) = (size : ℚ) / (1 - X) := by
    rw [show X - 1 = -(1 - X) by ring, div_neg, neg_div, neg_neg]
  have hs' : (0 : ℚ) ≤ (size : ℚ) := by positivity
  have hq1 : (size : ℚ) ≤ (size : ℚ) / (1 - X) := by
    rw [le_div_iff₀ hY]
    exact mul_le_of_le_one_right hs' (by linarith)
  have hq1pos : (0 : ℚ) ≤ (size : ℚ) / (1 - X) := le_trans hs' hq1
  simp only [calculateNewCapacity, ← hsp_def, ← hX_def]
  rw [hflip, pyInt_of_nonneg hq1pos]
  set n1 : ℤ := ⌊(size : ℚ) / (1 - X)⌋ with hn1_def
  have hn1 : size ≤ n1 := Int.le_floor.mpr hq1
  have hn1' : (0 : ℚ) ≤ (n1 : ℚ) := by
    have : (0 : ℤ) ≤ n1 := le_trans hs.le hn1
    exact_mod_cast this
  have harg : (0 : ℚ) ≤ (n1 : ℚ) / 1024 ^ 3 + 1 :=
    add_nonneg (div_nonneg hn1' (by norm_num)) zero_le_one
  rw [pyInt_of_nonneg harg]
  constructor
  · exact ⟨⌊(n1 : ℚ) / 1024 ^ 3 + 1⌋, mul_comm _ _⟩
  · have hlt : n1 < (⌊(n1 : ℚ) / ((1024 ^ 3 : ℤ) : ℚ)⌋ + 1) * 1024 ^ 3 :=
      lt_floor_div_succ_mul n1 (1024 ^ 3) (by norm_num)
    have hcast : ((n1 : ℚ) / 1024 ^ 3 + 1) = (n1 : ℚ) / ((1024 ^ 3 : ℤ) : ℚ) + 1 := by
      norm_num
    rw [hcast, Int.floor_add_one]
    omega

/-- C2 witness: the amended statement instantiated at 1 GiB used, tier
"basic", a 60-minute interval and margin 20
(`60·60·16·120 = 6912000 < 104857600`). -/
theorem calculateNewCapacity_ge_witness :
    (1024 ^ 3 : ℤ) ∣ calculateNewCapacity (1024 ^ 3) "basic" 60 20 ∧
      (1024 ^ 3 : ℤ) ≤ calculateNewCapacity (1024 ^ 3) "basic" 60 20 :=
  calculateNewCapacity_ge (1024 ^ 3) 60 20 "basic" (by decide) (by decide)
    (by decide) (by decide) (by decide) (by decide)

/-! ## Claim C3: degenerate denominator is not guarded -/

/-- C3: `calculateNewCapacity` has no guard at all on the sign of the
denominator.  At `usedBytes = 1 TiB`, tier "extreme", `duration = 137`,
`margin = 0` the denominator is positive (`7/2048`) and the function
silently returns a negative "size" instead of failing with the
`CapacityModelError` the specification requires. -/
theorem calculateNewCapacity_silently_negative :
    calculateNewCapacity (1024 ^ 4) "extreme" 137 0 < 0 := by
  have hs : qosSpeed "extreme" = 128 := rfl
  simp only [calculateNewCapacity, hs]
  norm_num [pyInt, ceil_as_floor]

/-! ## Claim C4: one volume's API failure aborts the batch -/

/-- An eligible volume whose patch call will fail (1 GiB quota fully used,
so the static-margin proposal of 2 GiB exceeds the quota). -/
def volFailing : Volume :=
  { name := "vol-a", region := "us-east4", volumeId := "id-a",
    quotaInBytes := 1024 ^ 3, usedBytes := 1024 ^ 3, snapReserve := 0,
    lifeCycleState := "available", isDataProtection := false,
    inReplication := false, storageClass := "hardware", serviceLevel := "basic" }

/-- A second volume listed after `volFailing` in the same batch. -/
def volAfter : Volume :=
  { name := "vol-b", region := "us-east4", volumeId := "id-b",
    quotaInBytes := 1024 ^ 3, usedBytes := 1024 ^ 3, snapReserve := 0,
    lifeCycleState := "available", isDataProtection := false,
    inReplication := false, storageClass := "hardware", serviceLevel := "basic" }

/-- An API in which exactly the patch of `volFailing` returns non-2xx. -/
def envFailA : ApiEnv := ⟨fun vid => vid == "id-a"⟩

/-- C4, counterexample to the claim as stated: with two volumes in the
batch and a failing patch call on the first one, the run aborts: the
second volume is never processed and produces no report line.  (The only
print for `vol-b` could be its entry line, and the report list contains
only `vol-a`'s.) -/
theorem batch_abort_cex :
    (runBatch envFailA 0 20 false [volFailing, volAfter]).2 = true ∧
      "vol-b" ∉ (runBatch envFailA 0 20 false [volFailing, volAfter]).1 := by
  have h : runBatch envFailA 0 20 false [volFailing, volAfter] = (["vol-a"], true) := by
    norm_num [runBatch, resizeVolume, computedNewSize, effectiveServiceLevel,
      staticNewSize, pyInt, volFailing, volAfter, envFailA]
  rw [h]
  simp

/-- C4 (amended): `resize`'s volume loop has no per-volume exception
handling, so an upstream API failure (non-2xx on the get or patch issued
for one volume) propagates and *aborts* the batch: the failing volume's
own report line is the last one printed and no later volume in the list
is processed or reported. -/
theorem runBatch_aborts_on_failure (env : ApiEnv) (duration margin : ℤ)
    (dry : Bool) (v : Volume) (rest : List Volume)
    (h1 : (resizeVolume v duration margin dry).patchCall.isSome = true)
    (h2 : env.apiFails v.volumeId = true) :
    runBatch env duration margin dry (v :: rest) =
      ([(resizeVolume v duration margin dry).report], true) := by
  simp [runBatch, h1, h2]

/-- C4 witness: the amended statement instantiated at the two concrete
volumes and the failing API. -/
theorem runBatch_aborts_on_failure_witness :
    runBatch envFailA 0 20 false (volFailing :: [volAfter]) =
      ([(resizeVolume volFailing 0 20 false).report], true) := by
  apply runBatch_aborts_on_failure
  · norm_num [resizeVolume, computedNewSize, effectiveServiceLevel,
      staticNewSize, pyInt, volFailing]
  · decide

/-! ## Claim C5: dry-run never patches -/

/-- C5: with the dry-run flag set, `resizeVolume` issues no patch/write
call, whatever the volume and whichever decision it reaches (line 437:
`if enlarge == True and dry_mode == False`). -/
theorem dry_run_never_patches (v : Volume) (duration margin : ℤ) :
    (resizeVolume v duration margin true).patchCall = none := by
  simp only [resizeVolume]
  split
  · rfl
  · split
    · rfl
    · split
      · simp
      · rfl

/-! ## Claim C6: impersonation token refresh timing -/

/-- C6, counterexample to the claim as stated: when the expiry is *exactly*
10 seconds away (`now + 10 == expiry`), the code's strict comparison
`datetime.now() + timedelta(seconds=10) > self.expiry` is false and
`get_token` performs **zero** refresh calls, while the claim demands
exactly one (`now + 10s >= expiry`, "including exactly 10 seconds"). -/
theorem get_token_at_10s_cex :
    (0 : ℤ) + 10 ≥ (ImpersonationCreds.mk 10 0).expiry ∧
      ((ImpersonationCreds.mk 10 0).get_token 0).2.2 = 0 := by
  constructor <;> decide

/-- C6 (amended): `get_token` refreshes exactly once, before returning,
when `now + 10 seconds > expiry` *strictly* (expiry strictly less than 10
seconds away); when `expiry ≥ now + 10 seconds` — including an expiry
exactly 10 seconds away — it performs zero refresh calls and leaves the
cached state untouched, so repeated calls at such times perform zero
refreshes in total. -/
theorem get_token_refresh_timing (s : ImpersonationCreds) (now : ℤ) :
    (s.expiry < now + 10 →
        s.get_token now = (ImpersonationCreds.newToken now,
          (ImpersonationCreds.newToken now).token, 1)) ∧
      (now + 10 ≤ s.expiry → s.get_token now = (s, s.token, 0)) ∧
      (∀ ts : List ℤ, (∀ t ∈ ts, t + 10 ≤ s.expiry) →
        s.getTokenCalls ts = (s, 0)) := by
  refine ⟨?_, ?_, ?_⟩
  · intro h
    simp [ImpersonationCreds.get_token, h]
  · intro h
    simp [ImpersonationCreds.get_token, not_lt.mpr h]
  · intro ts
    induction ts with
    | nil => intro _; rfl
    | cons t ts ih =>
      intro h
      have ht : t + 10 ≤ s.expiry := h t (List.mem_cons_self t ts)
      have hcall : s.get_token t = (s, s.token, 0) := by
        simp [ImpersonationCreds.get_token, not_lt.mpr ht]
      simp only [ImpersonationCreds.getTokenCalls, hcall]
      have hrest := ih (fun t' ht' => h t' (List.mem_cons_of_mem t ht'))
      simp [hrest]

/-- C6 witness: with the expiry 5 seconds away a single call refreshes
once; with the expiry 300 seconds away two successive calls refresh zero
times. -/
theorem get_token_refresh_timing_witness :
    (ImpersonationCreds.mk 5 0).get_token 0 =
        (ImpersonationCreds.newToken 0, (ImpersonationCreds.newToken 0).token, 1) ∧
      (ImpersonationCreds.mk 300 0).getTokenCalls [0, 1] =
        (ImpersonationCreds.mk 300 0, 0) :=
  ⟨(get_token_refresh_timing (ImpersonationCreds.mk 5 0) 0).1 (by decide),
    (get_token_refresh_timing (ImpersonationCreds.mk 300 0) 0).2.2 [0, 1]
      (by decide)⟩

/-! ## Claim C7: service-level translation round trips -/

/-- C7: `UI→API→UI` and `API→UI→API` are the identity on the four defined
labels of each side (`basic↔standard`, `standard↔premium`, `extreme` and
`standard-sw` fixed points), and any label outside a function's four
defined inputs yields `none` together with the logged warning, never a
guessed label. -/
theorem serviceLevel_translation_roundtrip :
    ((translateServiceLevelAPI2UI "basic").1.bind
        (fun u => (translateServiceLevelUI2API u).1) = some "basic" ∧
      (translateServiceLevelAPI2UI "standard").1.bind
        (fun u => (translateServiceLevelUI2API u).1) = some "standard" ∧
      (translateServiceLevelAPI2UI "extreme").1.bind
        (fun u => (translateServiceLevelUI2API u).1) = some "extreme" ∧
      (translateServiceLevelAPI2UI "standard-sw").1.bind
        (fun u => (translateServiceLevelUI2API u).1) = some "standard-sw") ∧
    ((translateServiceLevelUI2API "standard").1.bind
        (fun a => (translateServiceLevelAPI2UI a).1) = some "standard" ∧
      (translateServiceLevelUI2API "premium").1.bind
        (fun a => (translateServiceLevelAPI2UI a).1) = some "premium" ∧
      (translateServiceLevelUI2API "extreme").1.bind
        (fun a => (translateServiceLevelAPI2UI a).1) = some "extreme" ∧
      (translateServiceLevelUI2API "standard-sw").1.bind
        (fun a => (translateServiceLevelAPI2UI a).1) = some "standard-sw") ∧
    (∀ s : String, s ∉ (["basic", "standard", "extreme", "standard-sw"] : List String) →
      translateServiceLevelAPI2UI s = (none, true)) ∧
    (∀ s : String, s ∉ (["standard", "premium", "extreme", "standard-sw"] : List String) →
      translateServiceLevelUI2API s = (none, true)) := by
  refine ⟨⟨?_, ?_, ?_, ?_⟩, ⟨?_, ?_, ?_, ?_⟩, ?_, ?_⟩ <;>
    first
      | rfl
      | (intro s hs
         simp only [List.mem_cons, List.not_mem_nil, or_false, not_or] at hs
         obtain ⟨h1, h2, h3, h4⟩ := hs
         simp [translateServiceLevelAPI2UI, translateServiceLevelUI2API,
           h1, h2, h3, h4])

/-- C7 witness: the unknown label "gold" translates to `none` with a
warning in both directions. -/
theorem serviceLevel_translation_roundtrip_witness :
    translateServiceLevelAPI2UI "gold" = (none, true) ∧
      translateServiceLevelUI2API "gold" = (none, true) :=
  ⟨serviceLevel_translation_roundtrip.2.2.1 "gold" (by decide),
    serviceLevel_translation_roundtrip.2.2.2 "gold" (by decide)⟩

/-! ## Claim C8: 100 TiB cap -/

/-- C8: a patch call never carries a size above 100 TiB; a proposed
resize never exceeds 100 TiB; and whenever an eligible volume's computed
size exceeds both its quota and 100 TiB, the decision is a resize to
exactly `100 * 1024⁴` bytes with the WARNING notice emitted. -/
theorem resize_capped_at_100TiB (v : Volume) (duration margin : ℤ) (dry_mode : Bool) :
    (∀ r vid n, (resizeVolume v duration margin dry_mode).patchCall = some (r, vid, n) →
        n ≤ 100 * 1024 ^ 4) ∧
      (∀ n, (resizeVolume v duration margin dry_mode).decision = .resizeProposed n →
        n ≤ 100 * 1024 ^ 4) ∧
      (v.lifeCycleState = "available" →
        (v.isDataProtection && v.inReplication) = false →
        v.quotaInBytes < computedNewSize v duration margin →
        100 * 1024 ^ 4 < computedNewSize v duration margin →
        (resizeVolume v duration margin dry_mode).decision =
            .resizeProposed (100 * 1024 ^ 4) ∧
          (resizeVolume v duration margin dry_mode).capWarning = true) := by
  simp only [resizeVolume]
  split
  · rename_i hna
    refine ⟨by simp, by simp, ?_⟩
    intro h1 _ _ _
    simp [h1] at hna
  · split
    · rename_i hrep
      refine ⟨by simp, by simp, ?_⟩
      intro _ h2 _ _
      simp [h2] at hrep
    · split
      · split
        · rename_i henl hcap
          refine ⟨?_, ?_, ?_⟩
          · intro r vid n h
            split at h
            · simp at h
            · simp only [Option.some_inj, Prod.mk.injEq] at h
              omega
          · intro n h
            simp only [ResizeOutcome.mk.injEq] at h
            have := h
            simp only [Decision.resizeProposed.injEq] at *
            omega
          · intro _ _ _ _
            exact ⟨rfl, decide_eq_true hcap⟩
        · rename_i henl hcap
          push_neg at hcap
          refine ⟨?_, ?_, ?_⟩
          · intro r vid n h
            split at h
            · simp at h
            · simp only [Option.some_inj, Prod.mk.injEq] at h
              omega
          · intro n h
            simp only [Decision.resizeProposed.injEq] at h
            omega
          · intro _ _ _ hbig
            omega
      · rename_i henl
        push_neg at henl
        refine ⟨by simp, by simp, ?_⟩
        intro _ _ hq _
        omega

/-- An eligible volume whose static-margin proposal exceeds 100 TiB:
100 TiB used at margin 20 targets 125 TiB + 1 GiB, above the cap. -/
def volHuge : Volume :=
  { name := "vol-huge", region := "us-east4", volumeId := "id-huge",
    quotaInBytes := 90 * 1024 ^ 4, usedBytes := 100 * 1024 ^ 4, snapReserve := 0,
    lifeCycleState := "available", isDataProtection := false,
    inReplication := false, storageClass := "hardware", serviceLevel := "basic" }

theorem resize_capped_at_100TiB_witness :
    (resizeVolume volHuge 0 20 false).decision = .resizeProposed (100 * 1024 ^ 4) ∧
      (resizeVolume volHuge 0 20 false).capWarning = true := by
  apply (resize_capped_at_100TiB volHuge 0 20 false).2.2
  · rfl
  · rfl
  · show volHuge.quotaInBytes < computedNewSize volHuge 0 20
    norm_num [computedNewSize, staticNewSize, pyInt, volHuge]
  · show (100 * 1024 ^ 4 : ℤ) < computedNewSize volHuge 0 20
    norm_num [computedNewSize, staticNewSize, pyInt, volHuge]

/-! ## Claim C9: credential classification -/

/-- A probe outcome realizable by a file whose *name* is a valid base64
string (e.g. a file called "abcd") but whose name decodes to bytes that
are not JSON, while the file itself contains a valid JSON key. -/
def probeShadow : CredProbe :=
  { matchesPrincipalPattern := false, isBase64 := true, base64JSON := none,
    isFile := true, fileJSON := some ⟨"my-project"⟩ }

/-- C9, counterexample to the claim as stated: the base64 probe shadows
the file probe.  `probeShadow` describes an input that *is* "an existing
file path containing a JSON key" (the claim's third form, which it says
routes to the direct-key provider), yet `BearerAuth.__init__` never tries
the file: having passed `isBase64`, it attempts `json.loads` on the
decoded bytes and raises instead of constructing a provider. -/
theorem credential_classification_cex :
    probeShadow.isFile = true ∧ probeShadow.fileJSON = some ⟨"my-project"⟩ ∧
      bearerAuthInit "abcd" probeShadow = .error .jsonDecodeError := by
  refine ⟨rfl, rfl, ?_⟩
  rfl

/-- C9 (amended): classification is first-match-wins over the *probes*
(principal regex, then `isBase64`, then `Path.is_file`), not over the
fully-validated forms: a principal-shaped string builds the impersonation
provider; a base64 string whose decoded bytes parse as a JSON key builds
the direct-key provider; otherwise an existing file whose contents parse
as a JSON key builds the direct-key provider; a base64-passing string
with non-JSON content fails (JSON decode error) *even if it also names an
existing key file*; likewise a file with non-JSON content fails; and a
string matching none of the probes raises the explicit
`CredentialFormatError`.  All failure paths return before any network
call (the network traffic recorded in the result is only on success). -/
theorem credential_classification (s : String) (p : CredProbe) :
    (p.matchesPrincipalPattern = true →
        bearerAuthInit s p = .ok (.impersonation s, [.signJwt])) ∧
      (p.matchesPrincipalPattern = false → p.isBase64 = true →
        ∀ k, p.base64JSON = some k →
          bearerAuthInit s p = .ok (.jsonKey k, [.tokenRefresh])) ∧
      (p.matchesPrincipalPattern = false → p.isBase64 = false → p.isFile = true →
        ∀ k, p.fileJSON = some k →
          bearerAuthInit s p = .ok (.jsonKey k, [.tokenRefresh])) ∧
      (p.matchesPrincipalPattern = false → p.isBase64 = true → p.base64JSON = none →
        bearerAuthInit s p = .error .jsonDecodeError) ∧
      (p.matchesPrincipalPattern = false → p.isBase64 = false → p.isFile = true →
        p.fileJSON = none → bearerAuthInit s p = .error .jsonDecodeError) ∧
      (p.matchesPrincipalPattern = false → p.isBase64 = false → p.isFile = false →
        bearerAuthInit s p = .error .credentialFormatError) := by
  refine ⟨?_, ?_, ?_, ?_, ?_, ?_⟩
  · intro h
    simp [bearerAuthInit, h]
  · intro h1 h2 k hk
    simp [bearerAuthInit, h1, h2, hk]
  · intro h1 h2 h3 k hk
    simp [bearerAuthInit, h1, h2, h3, hk]
  · intro h1 h2 h3
    simp [bearerAuthInit, h1, h2, h3]
  · intro h1 h2 h3 h4
    simp [bearerAuthInit, h1, h2, h3, h4]
  · intro h1 h2 h3
    simp [bearerAuthInit, h1, h2, h3]

/-- C9 witness: a principal-shaped string routes to impersonation, a
base64 JSON key to the direct-key provider, an existing key file to the
direct-key provider, and a string matching no probe raises the
`CredentialFormatError` — each via the classification theorem. -/
theorem credential_classification_witness :
    bearerAuthInit "sa@proj.iam.gserviceaccount.com"
        ⟨true, false, none, false, none⟩ =
        .ok (.impersonation "sa@proj.iam.gserviceaccount.com", [.signJwt]) ∧
      bearerAuthInit "eyJwcm9qZWN0X2lkIjoicCJ9"
        ⟨false, true, some ⟨"p"⟩, false, none⟩ =
        .ok (.jsonKey ⟨"p"⟩, [.tokenRefresh]) ∧
      bearerAuthInit "/path/key.json" ⟨false, false, none, true, some ⟨"p2"⟩⟩ =
        .ok (.jsonKey ⟨"p2"⟩, [.tokenRefresh]) ∧
      bearerAuthInit "not a credential" ⟨false, false, none, false, none⟩ =
        .error .credentialFormatError :=
  ⟨(credential_classification "sa@proj.iam.gserviceaccount.com"
      ⟨true, false, none, false, none⟩).1 rfl,
    (credential_classification "eyJwcm9qZWN0X2lkIjoicCJ9"
      ⟨false, true, some ⟨"p"⟩, false, none⟩).2.1 rfl rfl ⟨"p"⟩ rfl,
    (credential_classification "/path/key.json"
      ⟨false, false, none, true, some ⟨"p2"⟩⟩).2.2.1 rfl rfl rfl ⟨"p2"⟩ rfl,
    (credential_classification "not a credential"
      ⟨false, false, none, false, none⟩).2.2.2.2.2 rfl rfl rfl⟩

/-! ## Claim C10: volume lookup by id -/

/-- C10: `getVolumesByVolumeID` returns `some v` exactly when `v` is in
the listed volumes, carries the requested id, and is the *only* volume
carrying it; whenever the number of matches differs from one — zero
matches or duplicates alike — it returns `none`. -/
theorem getVolumesByVolumeID_spec (vs : List Volume) (vid : String) :
    (∀ v, getVolumesByVolumeID vs vid = some v ↔
        v ∈ vs ∧ v.volumeId = vid ∧
          vs.countP (fun w => w.volumeId == vid) = 1) ∧
      (vs.countP (fun w => w.volumeId == vid) ≠ 1 →
        getVolumesByVolumeID vs vid = none) := by
  have hcount : vs.countP (fun w => w.volumeId == vid) =
      (vs.filter (fun w => w.volumeId == vid)).length :=
    List.countP_eq_length_filter _ _
  constructor
  · intro v
    constructor
    · intro h
      simp only [getVolumesByVolumeID] at h
      split at h
      · rename_i hlen
        have hlen' : (vs.filter (fun w => w.volumeId == vid)).length = 1 := by
          simpa using hlen
        obtain ⟨a, ha⟩ := List.length_eq_one.mp hlen'
        rw [ha] at h
        simp only [List.head?_cons, Option.some_inj] at h
        subst h
        have hmem : a ∈ vs.filter (fun w => w.volumeId == vid) := by
          rw [ha]; exact List.mem_singleton_self a
        rw [List.mem_filter] at hmem
        exact ⟨hmem.1, by simpa using hmem.2, by rw [hcount]; exact hlen'⟩
      · exact absurd h (by simp)
    · rintro ⟨hmem, hid, hone⟩
      rw [hcount] at hone
      obtain ⟨a, ha⟩ := List.length_eq_one.mp hone
      have hvin : v ∈ vs.filter (fun w => w.volumeId == vid) :=
        List.mem_filter.mpr ⟨hmem, by simpa using hid⟩
      rw [ha, List.mem_singleton] at hvin
      subst hvin
      simp only [getVolumesByVolumeID, ha]
      rfl
  · intro hne
    simp only [getVolumesByVolumeID]
    split
    · rename_i hlen
      exact absurd (by rw [hcount]; simpa using hlen) hne
    · rfl

/-- Two distinct volume records sharing the volumeId "dup". -/
def volDup1 : Volume :=
  { name := "dup-1", region := "us-west2", volumeId := "dup",
    quotaInBytes := 1024 ^ 3, usedBytes := 0, snapReserve := 0,
    lifeCycleState := "available", isDataProtection := false,
    inReplication := false, storageClass := "hardware", serviceLevel := "basic" }

def volDup2 : Volume :=
  { name := "dup-2", region := "us-west2", volumeId := "dup",
    quotaInBytes := 1024 ^ 3, usedBytes := 0, snapReserve := 0,
    lifeCycleState := "available", isDataProtection := false,
    inReplication := false, storageClass := "hardware", serviceLevel := "basic" }

/-- C10 witness: a duplicated volumeId is reported as `none`, the same as
a missing one. -/
theorem getVolumesByVolumeID_spec_witness :
    getVolumesByVolumeID [volDup1, volDup2] "dup" = none ∧
      getVolumesByVolumeID [volDup1, volDup2] "absent" = none :=
  ⟨(getVolumesByVolumeID_spec [volDup1, volDup2] "dup").2 (by decide),
    (getVolumesByVolumeID_spec [volDup1, volDup2] "absent").2 (by decide)⟩

end CVSCapacityManager
